import Mathlib

/-
Shallow embedding of the quicksales-desktop order-ingestion pipeline
(src-tauri/src/commands/order_commands.rs, customer_commands.rs and
src-tauri/src/database/schema.rs).  The SQLite tables are modelled as lists
of rows; each repository method mirrors exactly the SQL statement it issues
(which columns the statement reads and writes).  REAL columns are modelled
as rationals, TEXT timestamps as strings compared by the lexicographic
order (SQLite BINARY collation on RFC3339 strings).  The connection runs
with foreign-key enforcement left at its default (off), so DELETE
statements remove only the named rows.
-/

namespace QuickSales

/-- Row of the `customers` table / the `Customer` model struct. -/
structure Customer where
  id : String
  name : String
  phone : String
  licensePlate : String
  address : Option String
  lastPurchaseAt : Option String
  createdAt : String
  updatedAt : String
deriving Repr, DecidableEq

/-- Row of the `products` table / the `Product` model struct. -/
structure Product where
  id : String
  name : String
  unit : String
  price : ℚ
  categoryId : String
  pinyin : Option String
  stock : Option ℚ
  minStock : Option ℚ
  trackStock : Option Bool
  createdAt : String
  updatedAt : String
deriving Repr, DecidableEq

/-- An order item as submitted in the `Order` payload (`OrderItem` struct);
`id` is the product id (`item.id` is written to the `product_id` column). -/
structure OrderItem where
  id : String
  name : String
  unit : String
  price : ℚ
  quantity : ℚ
  discountPrice : Option ℚ
  remark : Option String
  sortValue : Int
deriving Repr, DecidableEq

/-- Row of the `orders` table. -/
structure OrderRow where
  id : String
  orderNumber : String
  date : String
  customerId : String
  totalAmount : ℚ
  remark : Option String
  templateId : Option String
  status : String
  createdAt : String
  updatedAt : String
deriving Repr, DecidableEq

/-- Row of the `order_items` table. -/
structure OrderItemRow where
  id : String
  orderId : String
  productId : String
  name : String
  unit : String
  price : ℚ
  quantity : ℚ
  discountPrice : Option ℚ
  remark : Option String
  sortValue : Int
deriving Repr, DecidableEq

/-- The `Order` payload submitted to `save_order` (order row fields plus
the embedded customer snapshot and the item list). -/
structure Order where
  id : String
  orderNumber : String
  date : String
  customerId : String
  customer : Customer
  items : List OrderItem
  totalAmount : ℚ
  remark : Option String
  templateId : Option String
  status : String
  createdAt : String
  updatedAt : String
deriving Repr, DecidableEq

/-- The database state: the four tables the order pipeline touches. -/
structure DB where
  customers : List Customer
  orders : List OrderRow
  orderItems : List OrderItemRow
  products : List Product
deriving Repr, DecidableEq

-- ========== String primitives ==========

/-- Lexicographic order on character lists: SQLite's BINARY collation on
(valid UTF-8) TEXT values, under which RFC3339 timestamps compare
chronologically. -/
def charListLt : List Char → List Char → Bool
  | [], [] => false
  | [], _ :: _ => true
  | _ :: _, [] => false
  | a :: as, b :: bs =>
    if a < b then true else if b < a then false else charListLt as bs

/-- `s` collates strictly before `t`. -/
def textLt (s t : String) : Bool := charListLt s.data t.data

/-- Rust `str::trim`: drop leading and trailing whitespace. -/
def strTrim (s : String) : String :=
  String.mk (((s.data.dropWhile Char.isWhitespace).reverse.dropWhile
    Char.isWhitespace).reverse)

-- ========== CustomerRepository ==========

namespace CustomerRepository

/-- `SELECT ... FROM customers WHERE id = ?1` (id is the primary key). -/
def get_by_id (db : DB) (id : String) : Option Customer :=
  db.customers.find? (fun c => c.id == id)

/-- `INSERT INTO customers ...` (all eight columns from the struct), on a
run where the `customers.id` PRIMARY KEY is not violated.  The violation
path matters only in `save_order`'s non-temporary branch, where the probe
and the INSERT use different ids; `save_orderE` below tracks it there.
Every other call site probes the same id it inserts, so the violation is
unreachable. -/
def insert (db : DB) (c : Customer) : DB :=
  { db with customers := db.customers ++ [c] }

/-- Effect on one row of `UPDATE customers SET name, phone, license_plate,
address, updated_at WHERE id = ?`: the statement does not mention the
`last_purchase_at` and `created_at` columns, so a matching row keeps its
stored values for those two. -/
def applyUpdate (c : Customer) (r : Customer) : Customer :=
  if r.id = c.id then
    { r with name := c.name, phone := c.phone, licensePlate := c.licensePlate,
             address := c.address, updatedAt := c.updatedAt }
  else r

/-- `CustomerRepository::update`. -/
def update (db : DB) (c : Customer) : DB :=
  { db with customers := db.customers.map (applyUpdate c) }

/-- `DELETE FROM customers WHERE id = ?1` (foreign keys are not enforced,
so no cascade fires). -/
def delete (db : DB) (id : String) : DB :=
  { db with customers := db.customers.filter (fun c => c.id != id) }

/-- The WHERE clause of `find_by_identity`:
`(?1 <> '' AND phone = ?1) OR (?2 <> '' AND license_plate = ?2)`. -/
def identityMatches (phone plate : String) (c : Customer) : Bool :=
  (phone != "" && c.phone == phone) || (plate != "" && c.licensePlate == plate)

/-- The same clause as a proposition. -/
def IdentityMatchesP (phone plate : String) (c : Customer) : Prop :=
  (phone ≠ "" ∧ c.phone = phone) ∨ (plate ≠ "" ∧ c.licensePlate = plate)

instance (phone plate : String) (c : Customer) :
    Decidable (IdentityMatchesP phone plate c) := by
  unfold IdentityMatchesP; infer_instance

/-- One step of scanning for the row with the largest `updated_at`. -/
def pickLatestStep (acc : Option Customer) (c : Customer) : Option Customer :=
  match acc with
  | none => some c
  | some b => if textLt b.updatedAt c.updatedAt = true then some c else some b

/-- `ORDER BY updated_at DESC LIMIT 1` over the matching rows: keep the row
with the largest `updated_at` (the first such row on ties). -/
def pickLatest (l : List Customer) : Option Customer :=
  l.foldl pickLatestStep none

/-- `CustomerRepository::find_by_identity`.  The query has no condition on
the id column: it filters only by phone/plate equality. -/
def find_by_identity (db : DB) (phone plate : String) : Option Customer :=
  pickLatest (db.customers.filter (identityMatches phone plate))

end CustomerRepository

-- ========== ProductRepository ==========

namespace ProductRepository

/-- Effect on one row of the `deduct_stock` UPDATE:
`SET stock = CASE WHEN track_stock = 1 AND stock IS NOT NULL THEN
MAX(0, stock - ?1) ELSE stock END, updated_at = ?2
WHERE id = ?3 AND track_stock = 1`. -/
def deductRow (now : String) (pid : String) (q : ℚ) (p : Product) : Product :=
  if p.id = pid ∧ p.trackStock = some true then
    { p with stock := p.stock.map (fun s => max 0 (s - q)), updatedAt := now }
  else p

/-- `ProductRepository::deduct_stock`. -/
def deduct_stock (db : DB) (now pid : String) (q : ℚ) : DB :=
  { db with products := db.products.map (deductRow now pid q) }

/-- `ProductRepository::deduct_stock_batch`: one `deduct_stock` per item. -/
def deduct_stock_batch (db : DB) (now : String) (items : List (String × ℚ)) : DB :=
  items.foldl (fun acc it => deduct_stock acc now it.1 it.2) db

/-- The cumulative effect of a whole batch on a single product row. -/
def batchRow (now : String) (items : List (String × ℚ)) (p : Product) : Product :=
  items.foldl (fun r it => deductRow now it.1 it.2 r) p

end ProductRepository

-- ========== OrderRepository ==========

namespace OrderRepository

/-- `SELECT ... FROM orders WHERE id = ?1`. -/
def get_by_id (db : DB) (id : String) : Option OrderRow :=
  db.orders.find? (fun o => o.id == id)

/-- The `orders` row written by insert/update for a payload. -/
def rowOf (order : Order) : OrderRow :=
  { id := order.id, orderNumber := order.orderNumber, date := order.date,
    customerId := order.customerId, totalAmount := order.totalAmount,
    remark := order.remark, templateId := order.templateId,
    status := order.status, createdAt := order.createdAt,
    updatedAt := order.updatedAt }

/-- The `order_items` row written for one item of an order
(`id` column is `"<orderId>_<productId>"`, `product_id` is `item.id`). -/
def itemRowOf (order : Order) (it : OrderItem) : OrderItemRow :=
  { id := order.id ++ "_" ++ it.id, orderId := order.id, productId := it.id,
    name := it.name, unit := it.unit, price := it.price,
    quantity := it.quantity, discountPrice := it.discountPrice,
    remark := it.remark, sortValue := it.sortValue }

/-- `OrderRepository::insert`: one INSERT into `orders`, then one INSERT
into `order_items` per item. -/
def insert (db : DB) (order : Order) : DB :=
  { db with orders := db.orders ++ [rowOf order],
            orderItems := db.orderItems ++ order.items.map (itemRowOf order) }

/-- Effect on one row of the `OrderRepository::update` UPDATE statement:
order_number, date, customer_id, total_amount, remark, template_id,
status and updated_at are written on the row whose id matches;
`created_at` is not in the statement. -/
def updateRowWith (order : Order) (o : OrderRow) : OrderRow :=
  if o.id = order.id then
    { o with orderNumber := order.orderNumber, date := order.date,
             customerId := order.customerId,
             totalAmount := order.totalAmount, remark := order.remark,
             templateId := order.templateId, status := order.status,
             updatedAt := order.updatedAt }
  else o

/-- `OrderRepository::update`: a single UPDATE of the `orders` row;
`order_items` rows are not touched. -/
def update (db : DB) (order : Order) : DB :=
  { db with orders := db.orders.map (updateRowWith order) }

end OrderRepository

-- ========== Order number generation: sequence extraction ==========

/-- Maximal digit runs of a string, in order: the matches of the regex
`(\d+)` used in step 4 of `generate_order_number`. -/
def digitRunsAux : List Char → List Char → List String
  | [], cur => if cur.isEmpty then [] else [String.mk cur.reverse]
  | c :: rest, cur =>
    if c.isDigit then digitRunsAux rest (c :: cur)
    else if cur.isEmpty then digitRunsAux rest []
    else String.mk cur.reverse :: digitRunsAux rest []

/-- Maximal digit runs of a string. -/
def digitRuns (s : String) : List String := digitRunsAux s.data []

/-- Numeric value of a digit string (decimal). -/
def digitVal (s : String) : ℕ :=
  s.data.foldl (fun a c => 10 * a + (c.toNat - 48)) 0

/-- `str::parse::<u32>` applied to a maximal digit run: succeeds exactly
when the value fits in 32 bits, otherwise errs and the run is dropped by
`filter_map`. -/
def parseU32 (s : String) : Option ℕ :=
  if digitVal s < 2 ^ 32 then some (digitVal s) else none

/-- Whether a digit run parses as a `u32`. -/
def fitsU32 (s : String) : Bool := decide (digitVal s < 2 ^ 32)

/-- Step 4 of `OrderRepository::generate_order_number`: from the prior
order number found in the reference window (if any), collect every digit
run that parses as `u32` and add 1 to the last one (u32 addition, hence
mod 2^32); default to 1. -/
def next_seq : Option String → ℕ
  | none => 1
  | some lastNum =>
    match ((digitRuns lastNum).filterMap parseU32).getLast? with
    | some v => (v + 1) % 2 ^ 32
    | none => 1

-- ========== Commands: customer_commands.rs ==========

/-- The placeholder row inserted for a deleted customer: a fixed display
name and the original id noted in the address field. -/
def placeholderC (now origId : String) : Customer :=
  { id := "deleted_" ++ origId, name := "已删除客户（历史保留）", phone := "",
    licensePlate := "", address := some ("原客户ID: " ++ origId),
    lastPurchaseAt := none, createdAt := now, updatedAt := now }

/-- First half of `ensure_placeholder_customer_and_relink_orders`: the
`SELECT COUNT(*)` probe followed by the conditional INSERT. -/
def ensurePlaceholder (now origId : String) (db : DB) : DB :=
  if db.customers.any (fun c => c.id == "deleted_" ++ origId) then db
  else { db with customers := db.customers ++ [placeholderC now origId] }

/-- Second half of `ensure_placeholder_customer_and_relink_orders`: the
UPDATE repointing orders from the original id to the placeholder id. -/
def relinkOrders (now origId : String) (db : DB) : DB :=
  { db with orders := db.orders.map (fun (o : OrderRow) =>
      if o.customerId = origId then
        { o with customerId := "deleted_" ++ origId, updatedAt := now }
      else o) }

/-- `ensure_placeholder_customer_and_relink_orders`: create (at most once)
the `deleted_<id>` placeholder row, then repoint all orders referencing
the original id to the placeholder. -/
def ensure_placeholder_customer_and_relink_orders
    (db : DB) (now : String) (origId : String) : DB :=
  relinkOrders now origId (ensurePlaceholder now origId db)

/-- `delete_customer` command. -/
def delete_customer (db : DB) (now id : String) : DB :=
  let db1 := ensure_placeholder_customer_and_relink_orders db now id
  CustomerRepository.delete db1 id

/-- The merged record `save_customer` builds when `find_by_identity`
matched: incoming trimmed values win unless blank; the address falls back;
`last_purchase_at` and `created_at` come from the existing row. -/
def mergeIncoming (now : String) (c existing : Customer) : Customer :=
  { id := existing.id
    name := if strTrim c.name = "" then existing.name else strTrim c.name
    phone := if strTrim c.phone = "" then existing.phone else strTrim c.phone
    licensePlate :=
      if strTrim c.licensePlate = "" then existing.licensePlate
      else strTrim c.licensePlate
    address := match c.address with
               | some a => some a
               | none => existing.address
    lastPurchaseAt := existing.lastPurchaseAt
    createdAt := existing.createdAt
    updatedAt := now }

/-- `save_customer` command: dedup by phone/plate via `find_by_identity`;
on a match, write the merged row under the existing id; otherwise plain
insert-or-update under the incoming id. -/
def save_customer (db : DB) (now : String) (c : Customer) : DB :=
  match CustomerRepository.find_by_identity db c.phone c.licensePlate with
  | some existing => CustomerRepository.update db (mergeIncoming now c existing)
  | none =>
    if (CustomerRepository.get_by_id db c.id).isSome then
      CustomerRepository.update db c
    else CustomerRepository.insert db c

/-- The merged record `merge_customers` builds: target values win unless
blank after trimming (name/phone/plate), address and last-purchase fall
back to the source, target's `created_at` is preserved. -/
def mergeTargets (now : String) (source target : Customer) : Customer :=
  { id := target.id
    name := if strTrim target.name = "" then source.name else target.name
    phone := if strTrim target.phone = "" then source.phone else target.phone
    licensePlate :=
      if strTrim target.licensePlate = "" then source.licensePlate
      else target.licensePlate
    address := match target.address with
               | some a => some a
               | none => source.address
    lastPurchaseAt := match target.lastPurchaseAt with
                      | some t => some t
                      | none => source.lastPurchaseAt
    createdAt := target.createdAt
    updatedAt := now }

/-- The state change of a successful `merge_customers`: write the merged
record under the target id, repoint orders from source to target, then
delete the source row. -/
def mergeApply (db : DB) (now sourceId targetId : String)
    (source target : Customer) : DB :=
  let db1 := CustomerRepository.update db (mergeTargets now source target)
  let db2 := { db1 with orders := db1.orders.map (fun (o : OrderRow) =>
      if o.customerId = sourceId then
        { o with customerId := targetId, updatedAt := now }
      else o) }
  { db2 with customers := db2.customers.filter (fun c => c.id != sourceId) }

/-- `merge_customers` command.  Equal ids fail before any database
operation; otherwise both rows are loaded, the merged record is written
under the target id, orders are repointed, and the source row deleted. -/
def merge_customers (db : DB) (now : String) (sourceId targetId : String) :
    Except String DB :=
  if sourceId = targetId then Except.error "源客户和目标客户不能相同"
  else
    match CustomerRepository.get_by_id db sourceId with
    | none => Except.error "Query returned no rows"
    | some source =>
      match CustomerRepository.get_by_id db targetId with
      | none => Except.error "Query returned no rows"
      | some target =>
        Except.ok (mergeApply db now sourceId targetId source target)

-- ========== Commands: order_commands.rs ==========

/-- The customer-reference step of `save_order`: a `temp_` customer id is
replaced (on the order and on its embedded snapshot) by the order-scoped
snapshot id `order_customer_<orderId>`; any other id is kept. -/
def resolveCustomerSnapshot (order : Order) : Order :=
  if order.customerId.startsWith "temp_" then
    let sid := "order_customer_" ++ order.id
    { order with customerId := sid, customer := { order.customer with id := sid } }
  else order

/-- The number step of `save_order`: only an empty submitted order number
is replaced by the generated one. -/
def stampNumber (gen : String) (order : Order) : Order :=
  if order.orderNumber = "" then { order with orderNumber := gen } else order

/-- The number step followed by the `updated_at` stamp. -/
def stampAll (now gen : String) (order : Order) : Order :=
  { stampNumber gen order with updatedAt := now }

/-- The database effect of `save_order` after the customer reference has
been resolved (`order3`): insert the customer row if absent, probe for an
existing order row with the same id, insert or update accordingly, deduct
stock only on insert, and finally (except for order-scoped snapshots)
rewrite the customer row with `CustomerRepository::update`. -/
def saveOrderTail (db : DB) (now : String) (order3 : Order) : DB :=
  let db1 :=
    if (CustomerRepository.get_by_id db order3.customerId).isSome then db
    else CustomerRepository.insert db order3.customer
  let existing := OrderRepository.get_by_id db1 order3.id
  let db2 :=
    if existing.isSome then OrderRepository.update db1 order3
    else OrderRepository.insert db1 order3
  let db3 :=
    if existing.isSome then db2
    else ProductRepository.deduct_stock_batch db2 now
      (order3.items.map (fun it => (it.id, it.quantity)))
  if order3.customerId.startsWith "order_customer_" then db3
  else CustomerRepository.update db3
    { order3.customer with lastPurchaseAt := some now, updatedAt := now }

/-- `save_order` command.  `now` stands for `Utc::now().to_rfc3339()` and
`gen` for the value `generate_order_number` returns when the submitted
number is empty (the generator itself is modelled by `next_seq` above).
The number is stamped, `updated_at` set, the customer reference resolved,
and then the pipeline of `saveOrderTail` runs; the final order number
string is returned. -/
def save_order (db : DB) (now gen : String) (order : Order) : DB × String :=
  (saveOrderTail db now (resolveCustomerSnapshot (stampAll now gen order)),
   (stampNumber gen order).orderNumber)

/-- `save_order` with the `customers.id` PRIMARY KEY constraint tracked.
The command probes `order.customer_id` and, on a miss, INSERTs the
embedded snapshot under the snapshot's own id `order.customer.id`; when a
row with that id already exists the INSERT fails with a UNIQUE violation
and the `?` operator aborts the command — only reads precede it, so
nothing has been written.  When no violation can occur (the probe hit, or
no row carries the snapshot's id — in the `temp_` branch the probe and
the INSERT use the same snapshot id, so a miss there implies no
violation), the run is exactly `save_order`. -/
def save_orderE (db : DB) (now gen : String) (order : Order) :
    Except String (DB × String) :=
  let order3 := resolveCustomerSnapshot (stampAll now gen order)
  if (CustomerRepository.get_by_id db order3.customerId).isSome then
    Except.ok (save_order db now gen order)
  else if db.customers.any (fun r => r.id == order3.customer.id) then
    Except.error "UNIQUE constraint failed: customers.id"
  else Except.ok (save_order db now gen order)

-- ========== Concrete instances used by counterexamples and witnesses ==========

/-- Product row with tracking enabled and NULL stock, for C10. -/
def pC10 : Product :=
  { id := "p1", name := "P", unit := "u", price := 1, categoryId := "",
    pinyin := none, stock := none, minStock := none, trackStock := some true,
    createdAt := "2024-01-01", updatedAt := "2024-01-01" }

/-- Database holding only `pC10`, for C10. -/
def dbC10 : DB := { customers := [], orders := [], orderItems := [], products := [pC10] }

/-- Ordinary customer row used to instantiate `C3_amended`. -/
def cC3 : Customer :=
  { id := "del_x", name := "G", phone := "138", licensePlate := "",
    address := none, lastPurchaseAt := none, createdAt := "1", updatedAt := "1" }

/-- Customer row for the C3 counterexample: a deletion placeholder that
nevertheless carries a phone number. -/
def cC3del : Customer :=
  { id := "deleted_x", name := "G", phone := "138", licensePlate := "",
    address := none, lastPurchaseAt := none, createdAt := "1", updatedAt := "1" }

/-- Database holding only `cC3del`, for the C3 counterexample. -/
def dbC3 : DB :=
  { customers := [cC3del], orders := [], orderItems := [], products := [] }

/-- Database holding only `cC3`, for the C3 witness. -/
def dbC3w : DB :=
  { customers := [cC3], orders := [], orderItems := [], products := [] }

/-- Existing customer "Old" with phone 138, for C8. -/
def c8old : Customer :=
  { id := "c9", name := "Old", phone := "138", licensePlate := "",
    address := none, lastPurchaseAt := none, createdAt := "1", updatedAt := "1" }

/-- Incoming customer with empty name and the same phone, for C8. -/
def c8inc : Customer :=
  { id := "new", name := "", phone := "138", licensePlate := "",
    address := none, lastPurchaseAt := none, createdAt := "2", updatedAt := "2" }

/-- Database holding only `c8old`, for C8. -/
def dbC8 : DB :=
  { customers := [c8old], orders := [], orderItems := [], products := [] }

/-- Merge source "Bob", for C6. -/
def srcC6 : Customer :=
  { id := "a", name := "Bob", phone := "111", licensePlate := "",
    address := none, lastPurchaseAt := none, createdAt := "1", updatedAt := "1" }

/-- Merge target whose name is a single space (non-empty but blank), for C6. -/
def tgtC6 : Customer :=
  { id := "b", name := " ", phone := "222", licensePlate := "",
    address := none, lastPurchaseAt := none, createdAt := "1", updatedAt := "1" }

/-- Database holding `srcC6` and `tgtC6`, for C6. -/
def dbC6 : DB :=
  { customers := [srcC6, tgtC6], orders := [], orderItems := [], products := [] }

/-- Customer "x", for C7. -/
def cC7 : Customer :=
  { id := "x", name := "X", phone := "1", licensePlate := "",
    address := none, lastPurchaseAt := none, createdAt := "1", updatedAt := "1" }

/-- An order row referencing customer "x", for C7. -/
def oC7 : OrderRow :=
  { id := "o7", orderNumber := "N7", date := "d", customerId := "x",
    totalAmount := 0, remark := none, templateId := none, status := "s",
    createdAt := "1", updatedAt := "1" }

/-- Database holding `cC7` and `oC7`, for C7. -/
def dbC7 : DB :=
  { customers := [cC7], orders := [oC7], orderItems := [], products := [] }

/-- Customer row "c1" with no recorded purchase yet, for C1. -/
def cC1 : Customer :=
  { id := "c1", name := "N", phone := "1", licensePlate := "",
    address := none, lastPurchaseAt := none, createdAt := "2024-01-01",
    updatedAt := "2024-01-01" }

/-- Order payload referencing `cC1` with a non-empty number, for C1. -/
def ordC1 : Order :=
  { id := "o1", orderNumber := "N1", date := "2025-06-06", customerId := "c1",
    customer := cC1, items := [], totalAmount := 0, remark := none,
    templateId := none, status := "done", createdAt := "2025-06-06",
    updatedAt := "2025-06-06" }

/-- Database holding only `cC1`, for C1. -/
def dbC1 : DB :=
  { customers := [cC1], orders := [], orderItems := [], products := [] }

/-- Existing customer "mary" with phone 138, for C2. -/
def cMary : Customer :=
  { id := "mary", name := "Mary", phone := "138", licensePlate := "",
    address := none, lastPurchaseAt := none, createdAt := "1", updatedAt := "1" }

/-- Embedded snapshot "bob" sharing mary's phone, for C2. -/
def cBob : Customer :=
  { id := "bob", name := "Bob", phone := "138", licensePlate := "",
    address := none, lastPurchaseAt := none, createdAt := "2", updatedAt := "2" }

/-- Order payload with non-temporary customer id "bob", for C2. -/
def ordC2 : Order :=
  { id := "o2", orderNumber := "N2", date := "d", customerId := "bob",
    customer := cBob, items := [], totalAmount := 0, remark := none,
    templateId := none, status := "s", createdAt := "1", updatedAt := "1" }

/-- Database holding only `cMary`, for C2. -/
def dbC2 : DB :=
  { customers := [cMary], orders := [], orderItems := [], products := [] }

/-- Order payload whose customer id "bob" has no row but whose embedded
snapshot carries the id "mary" of an existing row, for the C2 witness of
the UNIQUE-violation case. -/
def ordC2e : Order :=
  { id := "o2e", orderNumber := "N2e", date := "d", customerId := "bob",
    customer := cMary, items := [], totalAmount := 0, remark := none,
    templateId := none, status := "s", createdAt := "1", updatedAt := "1" }

/-- Customer "c9w", for C9. -/
def cC9 : Customer :=
  { id := "cw", name := "W", phone := "9", licensePlate := "",
    address := none, lastPurchaseAt := none, createdAt := "1", updatedAt := "1" }

/-- Tracked product with stock 5, for C9. -/
def pC9 : Product :=
  { id := "p", name := "P", unit := "u", price := 1, categoryId := "",
    pinyin := none, stock := some 5, minStock := none, trackStock := some true,
    createdAt := "1", updatedAt := "1" }

/-- Existing order row "o9", for C9. -/
def roC9 : OrderRow :=
  { id := "o9", orderNumber := "N9", date := "d", customerId := "cw",
    totalAmount := 0, remark := none, templateId := none, status := "s",
    createdAt := "1", updatedAt := "1" }

/-- Order item on product `pC9`, for C9. -/
def itC9 : OrderItem :=
  { id := "p", name := "I", unit := "u", price := 1, quantity := 2,
    discountPrice := none, remark := none, sortValue := 0 }

/-- Resubmission of order "o9" carrying an item on product `pC9`, for C9. -/
def ordC9 : Order :=
  { id := "o9", orderNumber := "N9b", date := "d", customerId := "cw",
    customer := cC9, items := [itC9], totalAmount := 2, remark := none,
    templateId := none, status := "s", createdAt := "1", updatedAt := "1" }

/-- Database with `cC9`, `roC9` and `pC9`, for C9. -/
def dbC9 : DB :=
  { customers := [cC9], orders := [roC9], orderItems := [], products := [pC9] }

-- ========== Frame lemmas for the table-level operations ==========

lemma insert_customer_orders (db : DB) (c : Customer) :
    (CustomerRepository.insert db c).orders = db.orders := rfl

lemma insert_customer_orderItems (db : DB) (c : Customer) :
    (CustomerRepository.insert db c).orderItems = db.orderItems := rfl

lemma insert_customer_products (db : DB) (c : Customer) :
    (CustomerRepository.insert db c).products = db.products := rfl

lemma update_customer_orders (db : DB) (c : Customer) :
    (CustomerRepository.update db c).orders = db.orders := rfl

lemma update_customer_orderItems (db : DB) (c : Customer) :
    (CustomerRepository.update db c).orderItems = db.orderItems := rfl

lemma update_customer_products (db : DB) (c : Customer) :
    (CustomerRepository.update db c).products = db.products := rfl

lemma applyUpdate_id (c r : Customer) :
    (CustomerRepository.applyUpdate c r).id = r.id := by
  unfold CustomerRepository.applyUpdate
  split <;> rfl

lemma update_customer_ids (db : DB) (c : Customer) :
    (CustomerRepository.update db c).customers.map (fun r => r.id) =
      db.customers.map (fun r => r.id) := by
  show (db.customers.map (CustomerRepository.applyUpdate c)).map (fun r => r.id) = _
  rw [List.map_map]
  exact List.map_congr_left (fun r _ => applyUpdate_id c r)

lemma update_order_customers (db : DB) (o : Order) :
    (OrderRepository.update db o).customers = db.customers := rfl

lemma update_order_orderItems (db : DB) (o : Order) :
    (OrderRepository.update db o).orderItems = db.orderItems := rfl

lemma update_order_products (db : DB) (o : Order) :
    (OrderRepository.update db o).products = db.products := rfl

lemma insert_order_customers (db : DB) (o : Order) :
    (OrderRepository.insert db o).customers = db.customers := rfl

lemma insert_order_products (db : DB) (o : Order) :
    (OrderRepository.insert db o).products = db.products := rfl

lemma deduct_stock_batch_customers (db : DB) (now : String)
    (items : List (String × ℚ)) :
    (ProductRepository.deduct_stock_batch db now items).customers = db.customers := by
  induction items generalizing db with
  | nil => rfl
  | cons it rest ih =>
    show (ProductRepository.deduct_stock_batch
      (ProductRepository.deduct_stock db now it.1 it.2) now rest).customers = _
    rw [ih]
    rfl

lemma deduct_stock_batch_orders (db : DB) (now : String)
    (items : List (String × ℚ)) :
    (ProductRepository.deduct_stock_batch db now items).orders = db.orders := by
  induction items generalizing db with
  | nil => rfl
  | cons it rest ih =>
    show (ProductRepository.deduct_stock_batch
      (ProductRepository.deduct_stock db now it.1 it.2) now rest).orders = _
    rw [ih]
    rfl

lemma deduct_stock_batch_orderItems (db : DB) (now : String)
    (items : List (String × ℚ)) :
    (ProductRepository.deduct_stock_batch db now items).orderItems = db.orderItems := by
  induction items generalizing db with
  | nil => rfl
  | cons it rest ih =>
    show (ProductRepository.deduct_stock_batch
      (ProductRepository.deduct_stock db now it.1 it.2) now rest).orderItems = _
    rw [ih]
    rfl

lemma deduct_stock_batch_products (db : DB) (now : String)
    (items : List (String × ℚ)) :
    (ProductRepository.deduct_stock_batch db now items).products =
      db.products.map (ProductRepository.batchRow now items) := by
  induction items generalizing db with
  | nil =>
    show db.products = db.products.map (fun p => p)
    rw [List.map_id']
  | cons it rest ih =>
    show (ProductRepository.deduct_stock_batch
      (ProductRepository.deduct_stock db now it.1 it.2) now rest).products = _
    rw [ih]
    show (db.products.map (ProductRepository.deductRow now it.1 it.2)).map _ = _
    rw [List.map_map]
    rfl

-- ========== Stock-ledger lemmas ==========

lemma deductRow_not_tracked (now pid : String) (q : ℚ) (p : Product)
    (h : p.trackStock ≠ some true) :
    ProductRepository.deductRow now pid q p = p := by
  unfold ProductRepository.deductRow
  rw [if_neg]
  intro hc
  exact h hc.2

lemma batchRow_not_tracked (now : String) (items : List (String × ℚ))
    (p : Product) (h : p.trackStock ≠ some true) :
    ProductRepository.batchRow now items p = p := by
  induction items with
  | nil => rfl
  | cons it rest ih =>
    show ProductRepository.batchRow now rest
      (ProductRepository.deductRow now it.1 it.2 p) = p
    rw [deductRow_not_tracked now it.1 it.2 p h]
    exact ih

lemma deductRow_stock_cases (now pid : String) (q : ℚ) (p : Product) :
    (ProductRepository.deductRow now pid q p).stock = p.stock ∨
      ∃ s', (ProductRepository.deductRow now pid q p).stock = some s' ∧ 0 ≤ s' := by
  unfold ProductRepository.deductRow
  split
  · cases hs : p.stock with
    | none => left; simp [hs]
    | some s => right; exact ⟨max 0 (s - q), by simp [hs], le_max_left 0 (s - q)⟩
  · left; rfl

lemma batchRow_stock_cases (now : String) (items : List (String × ℚ)) (p : Product) :
    (ProductRepository.batchRow now items p).stock = p.stock ∨
      ∃ s', (ProductRepository.batchRow now items p).stock = some s' ∧ 0 ≤ s' := by
  induction items generalizing p with
  | nil => left; rfl
  | cons it rest ih =>
    show (ProductRepository.batchRow now rest
      (ProductRepository.deductRow now it.1 it.2 p)).stock = p.stock ∨ _
    rcases ih (ProductRepository.deductRow now it.1 it.2 p) with h | ⟨s', hs', hnn⟩
    · rcases deductRow_stock_cases now it.1 it.2 p with h2 | ⟨s', hs2, hnn⟩
      · left; rw [h, h2]
      · right; exact ⟨s', h.trans hs2, hnn⟩
    · right
      exact ⟨s', hs', hnn⟩

/-- C5: stock deduction on a new order is clamped at zero for tracked
products — the written value is `max 0 (stock - quantity)`, hence any
stock value the batch changes is non-negative — and a product whose
tracking is not enabled keeps its stock value through the whole batch. -/
theorem C5_stock_deduction (db : DB) (now : String)
    (items : List (String × ℚ)) (p : Product) :
    ((ProductRepository.deduct_stock_batch db now items).products =
        db.products.map (ProductRepository.batchRow now items)) ∧
    (p.trackStock ≠ some true →
      (ProductRepository.batchRow now items p).stock = p.stock) ∧
    ((ProductRepository.batchRow now items p).stock = p.stock ∨
      ∃ s', (ProductRepository.batchRow now items p).stock = some s' ∧ 0 ≤ s') ∧
    (∀ q : ℚ, p.trackStock = some true →
      (ProductRepository.deductRow now p.id q p).stock =
        p.stock.map (fun s => max 0 (s - q))) := by
  refine ⟨deduct_stock_batch_products db now items, ?_, ?_, ?_⟩
  · intro h
    rw [batchRow_not_tracked now items p h]
  · exact batchRow_stock_cases now items p
  · intro q h
    unfold ProductRepository.deductRow
    rw [if_pos ⟨rfl, h⟩]

/-- Concrete instantiation of `C5_stock_deduction`: a tracked product with
stock 5 ordered with quantity 7 ends at stock 0, and an untracked product
keeps its stock through a batch. -/
theorem C5_witness :
    (ProductRepository.deductRow "T"
      ({ id := "p", name := "P", unit := "u", price := 1, categoryId := "",
         pinyin := none, stock := some 5, minStock := none,
         trackStock := some true, createdAt := "0",
         updatedAt := "0" } : Product).id 7
      { id := "p", name := "P", unit := "u", price := 1, categoryId := "",
        pinyin := none, stock := some 5, minStock := none,
        trackStock := some true, createdAt := "0",
        updatedAt := "0" }).stock = some 0 ∧
    (ProductRepository.batchRow "T" [("r", 3)]
      { id := "r", name := "R", unit := "u", price := 1, categoryId := "",
        pinyin := none, stock := some 2, minStock := none,
        trackStock := some false, createdAt := "0",
        updatedAt := "0" }).stock = some 2 := by
  constructor
  · have h := (C5_stock_deduction
      { customers := [], orders := [], orderItems := [], products := [] } "T" []
      { id := "p", name := "P", unit := "u", price := 1, categoryId := "",
        pinyin := none, stock := some 5, minStock := none,
        trackStock := some true, createdAt := "0",
        updatedAt := "0" }).2.2.2 7 rfl
    rw [h]
    norm_num [max_def]
  · have h := (C5_stock_deduction
      { customers := [], orders := [], orderItems := [], products := [] } "T"
      [("r", 3)]
      { id := "r", name := "R", unit := "u", price := 1, categoryId := "",
        pinyin := none, stock := some 2, minStock := none,
        trackStock := some false, createdAt := "0",
        updatedAt := "0" }).2.1 (by simp)
    rw [h]

-- ========== C10 ==========

/-- C10 fails as stated: a product with tracking enabled and NULL stock is
matched by the UPDATE's WHERE clause, so `deduct_stock` rewrites its
`updated_at` even though the stock value stays NULL. -/
theorem C10_counterexample :
    pC10.trackStock = some true ∧ pC10.stock = none ∧
    (ProductRepository.deduct_stock dbC10 "2025-06-06" "p1" 3).products.map
      (fun p => (p.updatedAt, p.stock)) = [("2025-06-06", none)] ∧
    ("2025-06-06" : String) ≠ "2024-01-01" := by
  refine ⟨rfl, rfl, ?_, by decide⟩
  rfl

/-- C10 amended: a product whose stock tracking is not enabled is left
entirely unchanged by a stock-deduction call; a tracked product whose
stock is NULL keeps every field except `updatedAt`, which is set to the
deduction time. -/
theorem C10_amended (db : DB) (now pid : String) (q : ℚ) (p : Product) :
    ((ProductRepository.deduct_stock db now pid q).products =
        db.products.map (ProductRepository.deductRow now pid q)) ∧
    (p.trackStock ≠ some true → ProductRepository.deductRow now pid q p = p) ∧
    (p.trackStock = some true → p.stock = none →
      ProductRepository.deductRow now pid q p =
        if p.id = pid then { p with updatedAt := now } else p) := by
  refine ⟨rfl, deductRow_not_tracked now pid q p, ?_⟩
  intro ht hs
  unfold ProductRepository.deductRow
  by_cases hid : p.id = pid
  · rw [if_pos ⟨hid, ht⟩, if_pos hid, hs]
    simp
  · rw [if_neg (fun hc => hid hc.1), if_neg hid]

/-- Concrete instantiation of `C10_amended`: an untracked product is left
untouched by `deductRow`. -/
theorem C10_witness :
    ProductRepository.deductRow "T" "x" 2
      { id := "x", name := "X", unit := "u", price := 1, categoryId := "",
        pinyin := none, stock := some 4, minStock := none,
        trackStock := some false, createdAt := "0", updatedAt := "0" } =
      { id := "x", name := "X", unit := "u", price := 1, categoryId := "",
        pinyin := none, stock := some 4, minStock := none,
        trackStock := some false, createdAt := "0", updatedAt := "0" } := by
  exact (C10_amended
    { customers := [], orders := [], orderItems := [], products := [] } "T" "x" 2
    { id := "x", name := "X", unit := "u", price := 1, categoryId := "",
      pinyin := none, stock := some 4, minStock := none,
      trackStock := some false, createdAt := "0", updatedAt := "0" }).2.1
    (by simp)

-- ========== C4 ==========

lemma filterMap_parseU32 (l : List String) :
    l.filterMap parseU32 = (l.filter fitsU32).map digitVal := by
  induction l with
  | nil => rfl
  | cons a rest ih =>
    rw [List.filterMap_cons, List.filter_cons]
    by_cases h : digitVal a < 2 ^ 32
    · have hp : parseU32 a = some (digitVal a) := by unfold parseU32; rw [if_pos h]
      have hf : fitsU32 a = true := by unfold fitsU32; exact decide_eq_true h
      rw [hp, hf, ih]
      simp
    · have hp : parseU32 a = none := by unfold parseU32; rw [if_neg h]
      have hf : fitsU32 a = false := by unfold fitsU32; exact decide_eq_false h
      rw [hp, hf, ih]
      simp

/-- C4 fails as stated: a digit run too large for `u32` is dropped by
`parse::<u32>().ok()` inside `filter_map`, so a prior number
`"A12B99999999999"` yields next sequence 13 (from the run `"12"`),
not the last digit run's value plus one. -/
theorem C4_counterexample :
    next_seq (some "A12B99999999999") = 13 ∧
    digitRuns "A12B99999999999" = ["12", "99999999999"] ∧
    digitVal "99999999999" + 1 = 100000000000 ∧
    (100000000000 : ℕ) ≠ 13 := by
  refine ⟨by decide, by decide, by decide, by decide⟩

/-- C4 amended: the next sequence value is 1 when no prior order exists;
otherwise it is the value of the **last** digit run of the prior number
that parses as an unsigned 32-bit integer, plus one (u32 addition), and 1
when no digit run parses; in particular a prior `"A12B034"` yields 35,
not 13. -/
theorem C4_amended :
    next_seq none = 1 ∧
    next_seq (some "A12B034") = 35 ∧
    ∀ s : String,
      ((digitRuns s).filter fitsU32 = [] → next_seq (some s) = 1) ∧
      (∀ r, ((digitRuns s).filter fitsU32).getLast? = some r →
        next_seq (some s) = (digitVal r + 1) % 2 ^ 32) := by
  refine ⟨rfl, by decide, ?_⟩
  intro s
  have hdef : next_seq (some s) =
      match ((digitRuns s).filterMap parseU32).getLast? with
      | some v => (v + 1) % 2 ^ 32
      | none => 1 := rfl
  constructor
  · intro h
    rw [hdef, filterMap_parseU32, List.getLast?_map, h]
    rfl
  · intro r hr
    rw [hdef, filterMap_parseU32, List.getLast?_map, hr]
    rfl

/-- Concrete instantiation of `C4_amended`: after `"20240101_000005"` the
next sequence value is 6. -/
theorem C4_witness : next_seq (some "20240101_000005") = 6 := by
  have h := (C4_amended.2.2 "20240101_000005").2 "000005" (by decide)
  rw [h]
  decide

-- ========== C3 ==========

lemma charListLt_nil_right (x : List Char) : charListLt x [] = false := by
  cases x <;> rfl

lemma charListLt_irrefl (x : List Char) : charListLt x x = false := by
  induction x with
  | nil => rfl
  | cons a as ih =>
    show (if a < a then true else if a < a then false else charListLt as as) = false
    rw [if_neg (lt_irrefl a), if_neg (lt_irrefl a)]
    exact ih

lemma charListLt_trans (x : List Char) :
    ∀ (y z : List Char), charListLt x y = true → charListLt y z = true →
      charListLt x z = true := by
  induction x with
  | nil =>
    intro y z _ hyz
    cases z with
    | nil => rw [charListLt_nil_right] at hyz; cases hyz
    | cons c cs => rfl
  | cons a as ih =>
    intro y z hxy hyz
    cases y with
    | nil => rw [charListLt_nil_right] at hxy; cases hxy
    | cons b bs =>
      cases z with
      | nil => rw [charListLt_nil_right] at hyz; cases hyz
      | cons c cs =>
        show (if a < c then true else if c < a then false else charListLt as cs) = true
        have hxy' : (if a < b then true else if b < a then false
          else charListLt as bs) = true := hxy
        have hyz' : (if b < c then true else if c < b then false
          else charListLt bs cs) = true := hyz
        by_cases hab : a < b
        · by_cases hbc : b < c
          · rw [if_pos (lt_trans hab hbc)]
          · rw [if_neg hbc] at hyz'
            by_cases hcb : c < b
            · rw [if_pos hcb] at hyz'; cases hyz'
            · have hbceq : b = c := le_antisymm (le_of_not_lt hcb) (le_of_not_lt hbc)
              rw [if_pos (hbceq ▸ hab)]
        · rw [if_neg hab] at hxy'
          by_cases hba : b < a
          · rw [if_pos hba] at hxy'; cases hxy'
          · have habeq : a = b := le_antisymm (le_of_not_lt hba) (le_of_not_lt hab)
            rw [if_neg hba] at hxy'
            by_cases hbc : b < c
            · rw [if_pos (show a < c by rw [habeq]; exact hbc)]
            · rw [if_neg hbc] at hyz'
              by_cases hcb : c < b
              · rw [if_pos hcb] at hyz'; cases hyz'
              · have hbceq : b = c := le_antisymm (le_of_not_lt hcb) (le_of_not_lt hbc)
                have hace : a = c := habeq.trans hbceq
                rw [if_neg hcb] at hyz'
                rw [if_neg (show ¬ a < c by rw [hace]; exact lt_irrefl c),
                    if_neg (show ¬ c < a by rw [hace]; exact lt_irrefl c)]
                exact ih bs cs hxy' hyz'

lemma charListLt_resolve (x : List Char) :
    ∀ (y z : List Char), charListLt x z = true →
      charListLt x y = true ∨ charListLt y z = true := by
  induction x with
  | nil =>
    intro y z hxz
    cases y with
    | nil => right; exact hxz
    | cons b bs => left; rfl
  | cons a as ih =>
    intro y z hxz
    cases z with
    | nil => rw [charListLt_nil_right] at hxz; cases hxz
    | cons c cs =>
      cases y with
      | nil => right; rfl
      | cons b bs =>
        have hxz' : (if a < c then true else if c < a then false
          else charListLt as cs) = true := hxz
        by_cases hac : a < c
        · by_cases hab : a < b
          · left
            show (if a < b then true else _) = true
            rw [if_pos hab]
          · by_cases hba : b < a
            · right
              show (if b < c then true else _) = true
              rw [if_pos (lt_trans hba hac)]
            · have habeq : a = b := le_antisymm (le_of_not_lt hba) (le_of_not_lt hab)
              right
              show (if b < c then true else _) = true
              rw [if_pos (show b < c by rw [← habeq]; exact hac)]
        · rw [if_neg hac] at hxz'
          by_cases hca : c < a
          · rw [if_pos hca] at hxz'; cases hxz'
          · have haceq : a = c := le_antisymm (le_of_not_lt hca) (le_of_not_lt hac)
            rw [if_neg hca] at hxz'
            by_cases hab : a < b
            · left
              show (if a < b then true else _) = true
              rw [if_pos hab]
            · by_cases hba : b < a
              · right
                show (if b < c then true else _) = true
                rw [if_pos (show b < c by rw [← haceq]; exact hba)]
              · have habeq : a = b := le_antisymm (le_of_not_lt hba) (le_of_not_lt hab)
                have hbceq : b = c := habeq ▸ haceq
                rcases ih bs cs hxz' with h | h
                · left
                  show (if a < b then true else if b < a then false
                    else charListLt as bs) = true
                  rw [if_neg hab, if_neg hba]
                  exact h
                · right
                  show (if b < c then true else if c < b then false
                    else charListLt bs cs) = true
                  rw [if_neg (show ¬ b < c by rw [hbceq]; exact lt_irrefl c),
                      if_neg (show ¬ c < b by rw [hbceq]; exact lt_irrefl c)]
                  exact h

lemma textLt_irrefl (s : String) : textLt s s = false := charListLt_irrefl s.data

lemma textLt_trans {s t u : String} (h1 : textLt s t = true)
    (h2 : textLt t u = true) : textLt s u = true :=
  charListLt_trans s.data t.data u.data h1 h2

lemma textLt_resolve {s u : String} (t : String) (h : textLt s u = true) :
    textLt s t = true ∨ textLt t u = true :=
  charListLt_resolve s.data t.data u.data h

lemma pickLatest_go (l : List Customer) (b : Customer) :
    ∃ c, l.foldl CustomerRepository.pickLatestStep (some b) = some c ∧
      (c = b ∨ c ∈ l) ∧ textLt c.updatedAt b.updatedAt = false ∧
      ∀ r ∈ l, textLt c.updatedAt r.updatedAt = false := by
  induction l generalizing b with
  | nil =>
    exact ⟨b, rfl, Or.inl rfl, textLt_irrefl b.updatedAt,
      fun r hr => absurd hr (List.not_mem_nil r)⟩
  | cons a rest ih =>
    show ∃ c, rest.foldl CustomerRepository.pickLatestStep
        (CustomerRepository.pickLatestStep (some b) a) = some c ∧ _
    have hstep : CustomerRepository.pickLatestStep (some b) a =
        if textLt b.updatedAt a.updatedAt = true then some a else some b := rfl
    by_cases h : textLt b.updatedAt a.updatedAt = true
    · rw [hstep, if_pos h]
      obtain ⟨c, hc, hmem, hcb, hall⟩ := ih a
      refine ⟨c, hc, ?_, ?_, ?_⟩
      · rcases hmem with rfl | hm
        · exact Or.inr (List.mem_cons_self _ _)
        · exact Or.inr (List.mem_cons_of_mem _ hm)
      · cases hq : textLt c.updatedAt b.updatedAt with
        | false => rfl
        | true =>
          have := textLt_trans hq h
          rw [hcb] at this
          cases this
      · intro r hr
        rcases List.mem_cons.mp hr with rfl | hm
        · exact hcb
        · exact hall r hm
    · rw [hstep, if_neg h]
      have h' : textLt b.updatedAt a.updatedAt = false := by
        cases hx : textLt b.updatedAt a.updatedAt with
        | false => rfl
        | true => exact absurd hx h
      obtain ⟨c, hc, hmem, hcb, hall⟩ := ih b
      refine ⟨c, hc, ?_, hcb, ?_⟩
      · rcases hmem with rfl | hm
        · exact Or.inl rfl
        · exact Or.inr (List.mem_cons_of_mem a hm)
      · intro r hr
        rcases List.mem_cons.mp hr with rfl | hm
        · cases hq : textLt c.updatedAt r.updatedAt with
          | false => rfl
          | true =>
            rcases textLt_resolve b.updatedAt hq with h1 | h2
            · rw [hcb] at h1; cases h1
            · rw [h'] at h2; cases h2
        · exact hall r hm

lemma pickLatest_spec (l : List Customer) (c : Customer)
    (h : CustomerRepository.pickLatest l = some c) :
    c ∈ l ∧ ∀ r ∈ l, textLt c.updatedAt r.updatedAt = false := by
  cases l with
  | nil => cases h
  | cons a rest =>
    have hdef : CustomerRepository.pickLatest (a :: rest) =
        rest.foldl CustomerRepository.pickLatestStep (some a) := rfl
    rw [hdef] at h
    obtain ⟨c', hc', hmem, hle, hall⟩ := pickLatest_go rest a
    rw [hc'] at h
    injection h with h
    subst h
    constructor
    · rcases hmem with rfl | hm
      · exact List.mem_cons_self _ _
      · exact List.mem_cons_of_mem _ hm
    · intro r hr
      rcases List.mem_cons.mp hr with rfl | hm
      · exact hle
      · exact hall r hm

lemma pickLatest_none (l : List Customer)
    (h : CustomerRepository.pickLatest l = none) : l = [] := by
  cases l with
  | nil => rfl
  | cons a rest =>
    exfalso
    have hdef : CustomerRepository.pickLatest (a :: rest) =
        rest.foldl CustomerRepository.pickLatestStep (some a) := rfl
    rw [hdef] at h
    obtain ⟨c', hc', _, _, _⟩ := pickLatest_go rest a
    rw [hc'] at h
    cases h

lemma identityMatches_iff (phone plate : String) (c : Customer) :
    CustomerRepository.identityMatches phone plate c = true ↔
      CustomerRepository.IdentityMatchesP phone plate c := by
  unfold CustomerRepository.identityMatches CustomerRepository.IdentityMatchesP
  simp [Bool.or_eq_true, Bool.and_eq_true, bne_iff_ne]

lemma find_by_identity_mem {db : DB} {phone plate : String} {c : Customer}
    (h : CustomerRepository.find_by_identity db phone plate = some c) :
    c ∈ db.customers ∧ CustomerRepository.identityMatches phone plate c = true := by
  unfold CustomerRepository.find_by_identity at h
  obtain ⟨hmemf, _⟩ := pickLatest_spec _ _ h
  exact ⟨List.mem_of_mem_filter hmemf, List.of_mem_filter hmemf⟩

/-- C3 fails as stated: the `find_by_identity` query has no condition on
the id column, so a `deleted_` placeholder row whose phone matches is
returned. -/
theorem C3_counterexample :
    (CustomerRepository.find_by_identity dbC3 "138" "").map (fun c => c.id) =
      some "deleted_x" ∧
    ("deleted_x" : String) = "deleted_" ++ "x" := by
  exact ⟨rfl, rfl⟩

/-- C3 amended: `find_by_identity` returns a customer row (of any identity
class — no id-prefix filtering is applied) whose phone equals the
non-empty incoming phone or whose license plate equals the non-empty
incoming plate, and no other matching row has a strictly larger
`updated_at`; it returns none exactly when no row matches. -/
theorem C3_amended (db : DB) (phone plate : String) :
    (∀ c, CustomerRepository.find_by_identity db phone plate = some c →
      c ∈ db.customers ∧ CustomerRepository.IdentityMatchesP phone plate c ∧
      ∀ r ∈ db.customers, CustomerRepository.IdentityMatchesP phone plate r →
        textLt c.updatedAt r.updatedAt = false) ∧
    (CustomerRepository.find_by_identity db phone plate = none →
      ∀ r ∈ db.customers, ¬ CustomerRepository.IdentityMatchesP phone plate r) := by
  constructor
  · intro c hc
    have hmem := find_by_identity_mem hc
    unfold CustomerRepository.find_by_identity at hc
    obtain ⟨_, hall⟩ := pickLatest_spec _ _ hc
    refine ⟨hmem.1, (identityMatches_iff phone plate c).mp hmem.2, ?_⟩
    intro r hr hrp
    exact hall r (List.mem_filter.mpr ⟨hr, (identityMatches_iff phone plate r).mpr hrp⟩)
  · intro h r hr hrp
    unfold CustomerRepository.find_by_identity at h
    have hnil := pickLatest_none _ h
    have : r ∈ db.customers.filter (CustomerRepository.identityMatches phone plate) :=
      List.mem_filter.mpr ⟨hr, (identityMatches_iff phone plate r).mpr hrp⟩
    rw [hnil] at this
    exact absurd this (List.not_mem_nil r)

/-- Concrete instantiation of `C3_amended`: on a one-row table whose row
matches the phone, the lookup returns a matching row. -/
theorem C3_witness :
    CustomerRepository.IdentityMatchesP "138" "" cC3 ∧ cC3 ∈ dbC3w.customers := by
  have h := (C3_amended dbC3w "138" "").1 cC3 rfl
  exact ⟨h.2.1, h.1⟩

-- ========== C8 ==========

lemma save_customer_matched {db : DB} {now : String} {c existing : Customer}
    (h : CustomerRepository.find_by_identity db c.phone c.licensePlate =
      some existing) :
    save_customer db now c =
      CustomerRepository.update db (mergeIncoming now c existing) := by
  unfold save_customer
  rw [h]

lemma applyUpdate_of_id_eq (m r : Customer) (hid : r.id = m.id) :
    CustomerRepository.applyUpdate m r =
      { r with name := m.name, phone := m.phone, licensePlate := m.licensePlate,
               address := m.address, updatedAt := m.updatedAt } := by
  unfold CustomerRepository.applyUpdate
  rw [if_pos hid]

/-- C8: when `save_customer` finds a phone/plate match, the stored merged
row keeps the existing row's id; name/phone/plate take the trimmed
incoming value when non-blank, else the existing value; address takes the
incoming value when present; `last_purchase_at` and `created_at` stay
those of the existing row; `updated_at` becomes the current time. -/
theorem C8_save_customer_merge (db : DB) (now : String) (c existing : Customer)
    (h : CustomerRepository.find_by_identity db c.phone c.licensePlate =
      some existing) :
    ∃ r ∈ (save_customer db now c).customers, r.id = existing.id ∧
      r.name = (if strTrim c.name = "" then existing.name else strTrim c.name) ∧
      r.phone = (if strTrim c.phone = "" then existing.phone else strTrim c.phone) ∧
      r.licensePlate = (if strTrim c.licensePlate = "" then existing.licensePlate
        else strTrim c.licensePlate) ∧
      r.address = (match c.address with
                   | some a => some a
                   | none => existing.address) ∧
      r.lastPurchaseAt = existing.lastPurchaseAt ∧
      r.createdAt = existing.createdAt ∧
      r.updatedAt = now := by
  have hmem := (find_by_identity_mem h).1
  rw [save_customer_matched h]
  refine ⟨CustomerRepository.applyUpdate (mergeIncoming now c existing) existing,
    List.mem_map_of_mem _ hmem, ?_⟩
  rw [applyUpdate_of_id_eq (mergeIncoming now c existing) existing rfl]
  exact ⟨rfl, rfl, rfl, rfl, rfl, rfl, rfl, rfl⟩

/-- Concrete instantiation of `C8_save_customer_merge`: submitting phone
"138" with an empty name keeps the existing name "Old". -/
theorem C8_witness :
    ((save_customer dbC8 "T" c8inc).customers.map
      (fun r => r.name)).contains "Old" = true := by
  obtain ⟨r, hmem, _, hname, _⟩ := C8_save_customer_merge dbC8 "T" c8inc c8old rfl
  have hn : r.name = "Old" := by rw [hname]; rfl
  have hmm : "Old" ∈ (save_customer dbC8 "T" c8inc).customers.map (fun r => r.name) := by
    rw [← hn]
    exact List.mem_map_of_mem _ hmem
  exact List.elem_eq_true_of_mem hmm

-- ========== C6 ==========

lemma merge_customers_ok {db : DB} {now sourceId targetId : String}
    {src tgt : Customer} (hne : sourceId ≠ targetId)
    (hs : CustomerRepository.get_by_id db sourceId = some src)
    (ht : CustomerRepository.get_by_id db targetId = some tgt) :
    merge_customers db now sourceId targetId =
      Except.ok (mergeApply db now sourceId targetId src tgt) := by
  unfold merge_customers
  rw [if_neg hne, hs, ht]

lemma get_by_id_mem {db : DB} {id : String} {c : Customer}
    (h : CustomerRepository.get_by_id db id = some c) :
    c ∈ db.customers ∧ c.id = id := by
  unfold CustomerRepository.get_by_id at h
  refine ⟨List.mem_of_find?_eq_some h, ?_⟩
  have := List.find?_some h
  simpa using this

/-- C6 fails as stated (in its merged-fields clause): a target name that
is non-empty but blank (a single space) is treated as empty by the code's
trim check, so the source's name wins even though the target's value was
not the empty string. -/
theorem C6_counterexample :
    (merge_customers dbC6 "T" "a" "b").map
      (fun d => (d.customers.find? (fun c => c.id == "b")).map (fun c => c.name)) =
      Except.ok (some "Bob") ∧
    tgtC6.name = " " ∧ (" " : String) ≠ "" ∧ ("Bob" : String) ≠ " " := by
  exact ⟨rfl, rfl, by decide, by decide⟩

/-- C6 amended: `merge_customers` fails (touching nothing) when the ids
are equal; otherwise, with both rows present, the target row afterwards
holds the target's name/phone/plate unless the target's value was blank
after trimming (then the source's value), the source row is gone, and
every order that referenced the source now references the target. -/
theorem C6_merge_customers (db : DB) (now sourceId targetId : String)
    (src tgt : Customer) :
    (sourceId = targetId →
      merge_customers db now sourceId targetId =
        Except.error "源客户和目标客户不能相同") ∧
    (sourceId ≠ targetId →
      CustomerRepository.get_by_id db sourceId = some src →
      CustomerRepository.get_by_id db targetId = some tgt →
      ∃ db2, merge_customers db now sourceId targetId = Except.ok db2 ∧
        (∃ r ∈ db2.customers, r.id = tgt.id ∧
          r.name = (if strTrim tgt.name = "" then src.name else tgt.name) ∧
          r.phone = (if strTrim tgt.phone = "" then src.phone else tgt.phone) ∧
          r.licensePlate = (if strTrim tgt.licensePlate = "" then
            src.licensePlate else tgt.licensePlate)) ∧
        CustomerRepository.get_by_id db2 sourceId = none ∧
        ∀ o ∈ db.orders, o.customerId = sourceId →
          ∃ o2 ∈ db2.orders, o2.id = o.id ∧ o2.customerId = targetId) := by
  constructor
  · intro h
    unfold merge_customers
    rw [if_pos h]
  · intro hne hs ht
    obtain ⟨htmem, htid⟩ := get_by_id_mem ht
    refine ⟨mergeApply db now sourceId targetId src tgt,
      merge_customers_ok hne hs ht, ?_, ?_, ?_⟩
    · refine ⟨CustomerRepository.applyUpdate (mergeTargets now src tgt) tgt, ?_, ?_⟩
      · apply List.mem_filter.mpr
        refine ⟨List.mem_map_of_mem _ htmem, ?_⟩
        rw [applyUpdate_id, htid]
        exact bne_iff_ne.mpr (Ne.symm hne)
      · rw [applyUpdate_of_id_eq (mergeTargets now src tgt) tgt rfl]
        exact ⟨rfl, rfl, rfl, rfl⟩
    · apply List.find?_eq_none.mpr
      intro x hx
      have hxne := (List.mem_filter.mp hx).2
      simp only [bne_iff_ne] at hxne
      simp [hxne]
    · intro o ho hcid
      have himg := List.mem_map_of_mem (fun (o : OrderRow) =>
        if o.customerId = sourceId then
          { o with customerId := targetId, updatedAt := now }
        else o) ho
      simp only [] at himg
      rw [if_pos hcid] at himg
      exact ⟨{ o with customerId := targetId, updatedAt := now }, himg, rfl, rfl⟩

/-- Concrete instantiation of `C6_merge_customers`: after merging "a" into
"b", the source row "a" is gone. -/
theorem C6_witness :
    (merge_customers dbC6 "T" "a" "b").map
      (fun d => CustomerRepository.get_by_id d "a") = Except.ok none := by
  obtain ⟨db2, hok, _, hnone, _⟩ :=
    (C6_merge_customers dbC6 "T" "a" "b" srcC6 tgtC6).2 (by decide) rfl rfl
  rw [hok]
  show Except.ok (CustomerRepository.get_by_id db2 "a") = Except.ok none
  rw [hnone]

-- ========== C7 ==========

lemma deleted_id_ne (id : String) : "deleted_" ++ id ≠ id := by
  intro h
  have h2 : ("deleted_" ++ id).length = id.length := by rw [h]
  rw [String.length_append] at h2
  have h3 : ("deleted_" : String).length = 8 := rfl
  omega

lemma countP_filter_keep (l : List Customer) (p q : Customer → Bool)
    (h : ∀ a, p a = true → q a = true) :
    (l.filter q).countP p = l.countP p := by
  rw [List.countP_filter]
  apply List.countP_congr
  intro a _
  constructor
  · intro ha
    exact (Bool.and_eq_true _ _).mp ha |>.1
  · intro ha
    exact (Bool.and_eq_true _ _).mpr ⟨ha, h a ha⟩

lemma ensurePlaceholder_orders (now id : String) (db : DB) :
    (ensurePlaceholder now id db).orders = db.orders := by
  unfold ensurePlaceholder
  split <;> rfl

lemma ensurePlaceholder_countP (now id : String) (db : DB) :
    (ensurePlaceholder now id db).customers.countP
        (fun c => c.id == "deleted_" ++ id) =
      max 1 (db.customers.countP (fun c => c.id == "deleted_" ++ id)) := by
  unfold ensurePlaceholder
  by_cases hany : db.customers.any (fun c => c.id == "deleted_" ++ id) = true
  · rw [if_pos hany]
    obtain ⟨c, hc, hp⟩ := List.any_eq_true.mp hany
    have hpos : 0 < db.customers.countP (fun c => c.id == "deleted_" ++ id) :=
      List.countP_pos_iff.mpr ⟨c, hc, hp⟩
    rw [max_eq_right hpos]
  · rw [if_neg hany]
    have hzero : db.customers.countP (fun c => c.id == "deleted_" ++ id) = 0 := by
      apply List.countP_eq_zero.mpr
      intro a ha hpa
      exact hany (List.any_eq_true.mpr ⟨a, ha, hpa⟩)
    show (db.customers ++ [placeholderC now id]).countP _ = _
    rw [List.countP_append, hzero, max_eq_left (Nat.zero_le 1)]
    simp [List.countP_cons, placeholderC]

/-- C7: `delete_customer` leaves exactly `max 1 k` placeholder rows (one
is created only when none existed), the placeholder row exists, the
original id is absent from the customers table, and every order that
referenced the original id now references `deleted_<id>`. -/
theorem C7_delete_customer (db : DB) (now id : String) :
    ((delete_customer db now id).customers.countP
        (fun c => c.id == "deleted_" ++ id) =
      max 1 (db.customers.countP (fun c => c.id == "deleted_" ++ id))) ∧
    (∃ c ∈ (delete_customer db now id).customers, c.id = "deleted_" ++ id) ∧
    (∀ c ∈ (delete_customer db now id).customers, c.id ≠ id) ∧
    (∀ o ∈ db.orders, o.customerId = id →
      ∃ o2 ∈ (delete_customer db now id).orders, o2.id = o.id ∧
        o2.customerId = "deleted_" ++ id) := by
  have hcust : (delete_customer db now id).customers =
      (ensurePlaceholder now id db).customers.filter (fun c => c.id != id) := rfl
  have hcount : (delete_customer db now id).customers.countP
      (fun c => c.id == "deleted_" ++ id) =
      max 1 (db.customers.countP (fun c => c.id == "deleted_" ++ id)) := by
    rw [hcust, countP_filter_keep, ensurePlaceholder_countP]
    intro a ha
    have haid : a.id = "deleted_" ++ id := by simpa using ha
    rw [haid]
    exact bne_iff_ne.mpr (deleted_id_ne id)
  refine ⟨hcount, ?_, ?_, ?_⟩
  · have hpos : 0 < (delete_customer db now id).customers.countP
        (fun c => c.id == "deleted_" ++ id) := by
      rw [hcount]
      exact lt_max_of_lt_left Nat.zero_lt_one
    obtain ⟨c, hc, hp⟩ := List.countP_pos_iff.mp hpos
    exact ⟨c, hc, by simpa using hp⟩
  · intro c hc
    rw [hcust] at hc
    have := (List.mem_filter.mp hc).2
    exact bne_iff_ne.mp this
  · intro o ho hcid
    have horders : (delete_customer db now id).orders =
        (ensurePlaceholder now id db).orders.map (fun (o : OrderRow) =>
          if o.customerId = id then
            { o with customerId := "deleted_" ++ id, updatedAt := now }
          else o) := rfl
    rw [horders, ensurePlaceholder_orders]
    have himg := List.mem_map_of_mem (fun (o : OrderRow) =>
      if o.customerId = id then
        { o with customerId := "deleted_" ++ id, updatedAt := now }
      else o) ho
    simp only [] at himg
    rw [if_pos hcid] at himg
    exact ⟨{ o with customerId := "deleted_" ++ id, updatedAt := now },
      himg, rfl, rfl⟩

/-- Concrete instantiation of `C7_delete_customer`: deleting customer "x"
leaves exactly one `deleted_x` placeholder row. -/
theorem C7_witness :
    (delete_customer dbC7 "T" "x").customers.countP
      (fun c => c.id == "deleted_" ++ "x") = 1 := by
  have h := (C7_delete_customer dbC7 "T" "x").1
  rw [h]
  rfl

-- ========== C9 ==========

lemma stampNumber_id (gen : String) (o : Order) :
    (stampNumber gen o).id = o.id := by
  unfold stampNumber
  split <;> rfl

lemma stampNumber_customerId (gen : String) (o : Order) :
    (stampNumber gen o).customerId = o.customerId := by
  unfold stampNumber
  split <;> rfl

lemma stampNumber_customer (gen : String) (o : Order) :
    (stampNumber gen o).customer = o.customer := by
  unfold stampNumber
  split <;> rfl

lemma resolveCustomerSnapshot_id (o : Order) :
    (resolveCustomerSnapshot o).id = o.id := by
  unfold resolveCustomerSnapshot
  split <;> rfl

lemma orders_customer_touch (db : DB) (c : Customer) (cond : Prop)
    [Decidable cond] :
    ((if cond then db else CustomerRepository.update db c) : DB).orders =
      db.orders := by
  split <;> rfl

lemma products_customer_touch (db : DB) (c : Customer) (cond : Prop)
    [Decidable cond] :
    ((if cond then db else CustomerRepository.update db c) : DB).products =
      db.products := by
  split <;> rfl

lemma orderItems_customer_touch (db : DB) (c : Customer) (cond : Prop)
    [Decidable cond] :
    ((if cond then db else CustomerRepository.update db c) : DB).orderItems =
      db.orderItems := by
  split <;> rfl

lemma ids_customer_touch (db : DB) (c : Customer) (cond : Prop)
    [Decidable cond] :
    ((if cond then db else CustomerRepository.update db c) : DB).customers.map
      (fun r => r.id) = db.customers.map (fun r => r.id) := by
  split
  · rfl
  · rw [update_customer_ids]

lemma saveOrderTail_frame (db : DB) (now : String) (o3 : Order)
    (h : (OrderRepository.get_by_id db o3.id).isSome = true) :
    (saveOrderTail db now o3).products = db.products ∧
    (saveOrderTail db now o3).orderItems = db.orderItems := by
  constructor <;>
  · simp only [saveOrderTail, products_customer_touch, orderItems_customer_touch]
    by_cases h1 : (CustomerRepository.get_by_id db o3.customerId).isSome = true
    · rw [if_pos h1]
      rw [if_pos h, if_pos h]
      rfl
    · rw [if_neg h1]
      have h2 : (OrderRepository.get_by_id
          (CustomerRepository.insert db o3.customer) o3.id).isSome = true := h
      rw [if_pos h2, if_pos h2]
      rfl

/-- C9: on the update path (an order row with the same id already exists),
`save_order` performs no stock deduction — the products table is unchanged
— and writes no `order_items` rows. -/
theorem C9_update_path_frame (db : DB) (now gen : String) (order : Order)
    (h : (OrderRepository.get_by_id db order.id).isSome = true) :
    (save_order db now gen order).1.products = db.products ∧
    (save_order db now gen order).1.orderItems = db.orderItems := by
  have hall : (stampAll now gen order).id = order.id := stampNumber_id gen order
  have hid3 : (resolveCustomerSnapshot (stampAll now gen order)).id = order.id := by
    rw [resolveCustomerSnapshot_id]
    exact hall
  have h3 : (OrderRepository.get_by_id db
      (resolveCustomerSnapshot (stampAll now gen order)).id).isSome = true := by
    rw [hid3]
    exact h
  have hso : (save_order db now gen order).1 = saveOrderTail db now
      (resolveCustomerSnapshot (stampAll now gen order)) := by
    simp only [save_order]
  rw [hso]
  exact saveOrderTail_frame db now _ h3

/-- Concrete instantiation of `C9_update_path_frame`: resubmitting order
"o9" with an item on the tracked product `pC9` leaves the products table
(and its stock 5) unchanged. -/
theorem C9_witness :
    (save_order dbC9 "T" "G" ordC9).1.products = dbC9.products ∧
    (save_order dbC9 "T" "G" ordC9).1.orderItems = dbC9.orderItems := by
  exact C9_update_path_frame dbC9 "T" "G" ordC9 rfl

-- ========== C2 ==========

lemma resolve_of_nontemp {o : Order}
    (h : o.customerId.startsWith "temp_" = false) :
    resolveCustomerSnapshot o = o := by
  have hneg : ¬ (o.customerId.startsWith "temp_" = true) := by
    rw [h]
    exact Bool.false_ne_true
  unfold resolveCustomerSnapshot
  rw [if_neg hneg]

lemma update_order_orders (db : DB) (o : Order) :
    (OrderRepository.update db o).orders =
      db.orders.map (OrderRepository.updateRowWith o) := rfl

lemma insert_order_orders (db : DB) (o : Order) :
    (OrderRepository.insert db o).orders =
      db.orders ++ [OrderRepository.rowOf o] := rfl

lemma insert_customer_customers (db : DB) (c : Customer) :
    (CustomerRepository.insert db c).customers = db.customers ++ [c] := rfl

lemma saveOrderTail_orders_cid (db : DB) (now : String) (o3 : Order) :
    ∀ o ∈ (saveOrderTail db now o3).orders, o.id = o3.id →
      o.customerId = o3.customerId := by
  intro o ho hoid
  simp only [saveOrderTail, orders_customer_touch] at ho
  have hdb1orders : ((if (CustomerRepository.get_by_id db o3.customerId).isSome
      = true then db else CustomerRepository.insert db o3.customer) : DB).orders
      = db.orders := by
    split <;> rfl
  by_cases h2 : (OrderRepository.get_by_id
      (if (CustomerRepository.get_by_id db o3.customerId).isSome = true then db
       else CustomerRepository.insert db o3.customer) o3.id).isSome = true
  · rw [if_pos h2, if_pos h2] at ho
    rw [update_order_orders, hdb1orders] at ho
    obtain ⟨o0, ho0, rfl⟩ := List.mem_map.mp ho
    by_cases hcase : o0.id = o3.id
    · have heq : OrderRepository.updateRowWith o3 o0 = { o0 with
          orderNumber := o3.orderNumber, date := o3.date,
          customerId := o3.customerId, totalAmount := o3.totalAmount,
          remark := o3.remark, templateId := o3.templateId,
          status := o3.status, updatedAt := o3.updatedAt } := by
        unfold OrderRepository.updateRowWith
        rw [if_pos hcase]
      rw [heq]
    · have heq : OrderRepository.updateRowWith o3 o0 = o0 := by
        unfold OrderRepository.updateRowWith
        rw [if_neg hcase]
      rw [heq] at hoid
      exact absurd hoid hcase
  · rw [if_neg h2, if_neg h2] at ho
    rw [deduct_stock_batch_orders, insert_order_orders, hdb1orders] at ho
    rcases List.mem_append.mp ho with hleft | hright
    · exfalso
      cases hx : OrderRepository.get_by_id
          (if (CustomerRepository.get_by_id db o3.customerId).isSome = true
            then db else CustomerRepository.insert db o3.customer) o3.id with
      | some v =>
        rw [hx] at h2
        exact h2 rfl
      | none =>
        unfold OrderRepository.get_by_id at hx
        rw [hdb1orders] at hx
        exact List.find?_eq_none.mp hx o hleft (beq_iff_eq.mpr hoid)
    · rw [List.mem_singleton] at hright
      subst hright
      rfl

lemma saveOrderTail_customer_ids (db : DB) (now : String) (o3 : Order) :
    (saveOrderTail db now o3).customers.map (fun c => c.id) =
      if (CustomerRepository.get_by_id db o3.customerId).isSome = true
      then db.customers.map (fun c => c.id)
      else db.customers.map (fun c => c.id) ++ [o3.customer.id] := by
  simp only [saveOrderTail]
  rw [ids_customer_touch]
  by_cases h1 : (CustomerRepository.get_by_id db o3.customerId).isSome = true
  · rw [if_pos h1, if_pos h1]
    by_cases h2 : (OrderRepository.get_by_id db o3.id).isSome = true
    · rw [if_pos h2, if_pos h2]
      rfl
    · rw [if_neg h2, if_neg h2, deduct_stock_batch_customers]
      rfl
  · rw [if_neg h1, if_neg h1]
    by_cases h2 : (OrderRepository.get_by_id
        (CustomerRepository.insert db o3.customer) o3.id).isSome = true
    · rw [if_pos h2, if_pos h2, update_order_customers,
        insert_customer_customers, List.map_append]
      rfl
    · rw [if_neg h2, if_neg h2, deduct_stock_batch_customers,
        insert_order_customers, insert_customer_customers, List.map_append]
      rfl

/-- C2 fails as stated: with an existing customer ("mary") whose phone
equals the incoming order's customer phone, submitting the order under
the distinct non-temporary id "bob" keeps `customerId = "bob"` — no
phone/plate resolution or repointing happens in `save_order`. -/
theorem C2_counterexample :
    ordC2.customerId = "bob" ∧
    ordC2.customerId.startsWith "temp_" = false ∧
    cMary ∈ dbC2.customers ∧ cMary.phone = ordC2.customer.phone ∧
    ((save_order dbC2 "T" "G" ordC2).1.orders.map (fun o => o.customerId)) =
      ["bob"] ∧
    ("bob" : String) ≠ "mary" := by
  refine ⟨rfl, by decide, List.mem_cons_self _ _, rfl, rfl, by decide⟩

/-- The effect of the total pipeline for a non-temporary customer id:
every written order row keeps the incoming `customerId`, and the
customers table gains the snapshot row (under its own id) exactly when no
row with id `order.customerId` existed.  This describes the runs on which
no constraint fires; `C2_amended` below adds the primary-key error
path. -/
lemma save_order_nontemp_total (db : DB) (now gen : String) (order : Order)
    (h : order.customerId.startsWith "temp_" = false) :
    (∀ o ∈ (save_order db now gen order).1.orders, o.id = order.id →
      o.customerId = order.customerId) ∧
    ((save_order db now gen order).1.customers.map (fun c => c.id) =
      if (CustomerRepository.get_by_id db order.customerId).isSome = true
      then db.customers.map (fun c => c.id)
      else db.customers.map (fun c => c.id) ++ [order.customer.id]) := by
  have hallcid : (stampAll now gen order).customerId = order.customerId :=
    stampNumber_customerId gen order
  have hallid : (stampAll now gen order).id = order.id := stampNumber_id gen order
  have hallcust : (stampAll now gen order).customer = order.customer :=
    stampNumber_customer gen order
  have htemp : (stampAll now gen order).customerId.startsWith "temp_" = false := by
    rw [hallcid]
    exact h
  have ho3cid : (resolveCustomerSnapshot (stampAll now gen order)).customerId
      = order.customerId := by
    rw [resolve_of_nontemp htemp]
    exact hallcid
  have ho3id : (resolveCustomerSnapshot (stampAll now gen order)).id = order.id := by
    rw [resolveCustomerSnapshot_id]
    exact hallid
  have ho3cust : (resolveCustomerSnapshot (stampAll now gen order)).customer
      = order.customer := by
    rw [resolve_of_nontemp htemp]
    exact hallcust
  have hso : (save_order db now gen order).1 = saveOrderTail db now
      (resolveCustomerSnapshot (stampAll now gen order)) := by
    simp only [save_order]
  rw [hso]
  constructor
  · intro o ho hoid
    have hoid3 : o.id = (resolveCustomerSnapshot (stampAll now gen order)).id := by
      rw [ho3id]
      exact hoid
    have key := saveOrderTail_orders_cid db now
      (resolveCustomerSnapshot (stampAll now gen order)) o ho hoid3
    rw [ho3cid] at key
    exact key
  · have hB := saveOrderTail_customer_ids db now
      (resolveCustomerSnapshot (stampAll now gen order))
    rw [ho3cid, ho3cust] at hB
    exact hB

/-- C2 amended: for a non-temporary customer id, `save_order` performs no
phone/plate identity resolution.  When no customers row with id
`order.customerId` exists but a row with the embedded snapshot's id
`order.customer.id` does, the snapshot INSERT violates the customers
primary key and the command fails with the constraint error having
written nothing; on every successful run, each written order row keeps
the incoming `order.customerId`, and the customers table gains exactly
the snapshot row (under its own id) when no row with id
`order.customerId` existed. -/
theorem C2_amended (db : DB) (now gen : String) (order : Order)
    (h : order.customerId.startsWith "temp_" = false) :
    ((CustomerRepository.get_by_id db order.customerId).isSome = false →
      db.customers.any (fun r => r.id == order.customer.id) = true →
      save_orderE db now gen order =
        Except.error "UNIQUE constraint failed: customers.id") ∧
    (∀ db2 n, save_orderE db now gen order = Except.ok (db2, n) →
      (∀ o ∈ db2.orders, o.id = order.id → o.customerId = order.customerId) ∧
      (db2.customers.map (fun c => c.id) =
        if (CustomerRepository.get_by_id db order.customerId).isSome = true
        then db.customers.map (fun c => c.id)
        else db.customers.map (fun c => c.id) ++ [order.customer.id])) := by
  have hallcid : (stampAll now gen order).customerId = order.customerId :=
    stampNumber_customerId gen order
  have hallcust : (stampAll now gen order).customer = order.customer :=
    stampNumber_customer gen order
  have htemp : (stampAll now gen order).customerId.startsWith "temp_" = false := by
    rw [hallcid]
    exact h
  have ho3cid : (resolveCustomerSnapshot (stampAll now gen order)).customerId
      = order.customerId := by
    rw [resolve_of_nontemp htemp]
    exact hallcid
  have ho3cust : (resolveCustomerSnapshot (stampAll now gen order)).customer
      = order.customer := by
    rw [resolve_of_nontemp htemp]
    exact hallcust
  constructor
  · intro h1 h2
    have h1' : ¬ ((CustomerRepository.get_by_id db (resolveCustomerSnapshot
        (stampAll now gen order)).customerId).isSome = true) := by
      rw [ho3cid, h1]
      exact Bool.false_ne_true
    have hany : db.customers.any (fun r => r.id == (resolveCustomerSnapshot
        (stampAll now gen order)).customer.id) = true := by
      rw [ho3cust]
      exact h2
    simp only [save_orderE]
    rw [if_neg h1', if_pos hany]
  · intro db2 n heq
    simp only [save_orderE] at heq
    have hgoal := save_order_nontemp_total db now gen order h
    split at heq
    · rw [Except.ok.injEq] at heq
      rw [heq] at hgoal
      exact hgoal
    · split at heq
      · exact Except.noConfusion heq
      · rw [Except.ok.injEq] at heq
        rw [heq] at hgoal
        exact hgoal

/-- Concrete instantiation of `C2_amended`: saving `ordC2` succeeds and
inserts "bob" as a brand-new customer row next to "mary", while `ordC2e`
— whose embedded snapshot id "mary" collides with the existing row — makes
the command fail with the UNIQUE violation. -/
theorem C2_witness :
    (save_order dbC2 "T" "G" ordC2).1.customers.map (fun c => c.id) =
      ["mary", "bob"] ∧
    save_orderE dbC2 "T" "G" ordC2e =
      Except.error "UNIQUE constraint failed: customers.id" := by
  constructor
  · have hB := ((C2_amended dbC2 "T" "G" ordC2 (by decide)).2
      (save_order dbC2 "T" "G" ordC2).1 (save_order dbC2 "T" "G" ordC2).2 rfl).2
    rw [hB]
    rfl
  · exact (C2_amended dbC2 "T" "G" ordC2e (by decide)).1 rfl rfl

-- ========== C1 ==========

/-- C1 is a code bug: `save_order` sets `lastPurchaseAt` on the in-memory
customer, but `CustomerRepository::update`'s UPDATE statement has no
`last_purchase_at` column, so after submitting order "o1" for the regular
customer "c1" (whose stored `lastPurchaseAt` is NULL) the persisted row
still reads NULL for `lastPurchaseAt` even though `updatedAt` was written
to the current time. -/
theorem C1_lastPurchase_not_persisted :
    ordC1.customerId.startsWith "order_customer_" = false ∧
    cC1.lastPurchaseAt = none ∧
    ((save_order dbC1 "2025-06-06T00:00:00Z" "G" ordC1).1.customers.find?
      (fun c => c.id == "c1")).map (fun c => (c.lastPurchaseAt, c.updatedAt)) =
      some ((none : Option String), "2025-06-06T00:00:00Z") := by
  exact ⟨by decide, rfl, rfl⟩

end QuickSales
